import Mathlib

/-!
Verification of the AI travel assistant planning core.

This file is a shallow embedding of the repository source:
  data_models.py  : the pydantic value records (Logistics, Activity, Day,
                    TravelItinerary);
  agents.py       : the generation orchestrator run_planning_agent_gemini,
                    the fallback expansion get_mock_itinerary_with_expansion,
                    and the audio summary generator generate_daily_summary_audio;
  app.py          : the outer retry controller in main;
  tools.py        : calculate_travel_time;
  config.py       : load_fallback_itinerary.

External services (the Gemini LLM, the TTS service, the directions API, and
the fallback file on disk) are modelled as oracle parameters: a function from
the attempt index to the outcome of that attempt, and an Option value for the
loaded fallback document. The control loops are embedded as fuel-indexed
recursions that also record the observable effects the claims speak about
(number of outbound calls made, sleeps performed).
-/

namespace TravelAssistant

/-- Logistics record, from data_models.py. -/
structure Logistics where
  transport_type : String
  estimated_duration : String
  additional_notes : Option String
deriving DecidableEq, Repr

/-- Activity record, from data_models.py. -/
structure Activity where
  name : String
  short_description : String
  location : String
  start_time : String
  end_time : String
  estimated_cost : String
deriving DecidableEq, Repr

/-- Day record, from data_models.py. -/
structure Day where
  date : String
  day_name : String
  activities : List Activity
  logistics_between_activities : List Logistics
deriving DecidableEq, Repr

/-- TravelItinerary record, from data_models.py. -/
structure TravelItinerary where
  destination : String
  total_days : Nat
  main_theme : String
  daily_itinerary : List Day
deriving DecidableEq, Repr

/-- Outcome of one LLM generate_content attempt inside
run_planning_agent_gemini, as discriminated by the except clauses of
agents.py: a response whose text parses and validates to an itinerary,
a ServiceUnavailable (503) exception, a ResourceExhausted (429) exception,
or any other exception (malformed JSON, schema validation failure, ...). -/
inductive LLMOutcome where
  | ok (it : TravelItinerary)
  | serviceUnavailable
  | resourceExhausted
  | otherError
deriving DecidableEq, Repr

/-- How one call of run_planning_agent_gemini ends: a returned itinerary,
a returned None, or a raised TransientRetryError. -/
inductive PlanResult where
  | ok (it : TravelItinerary)
  | failed
  | transientRetry
deriving DecidableEq, Repr

/-- Observable behaviour of one call of run_planning_agent_gemini: its
result, how many LLM attempts it made, and the sleeps it performed
(each entry is the delay in milliseconds). -/
structure PlanRun where
  result : PlanResult
  llmCalls : Nat
  sleepsMs : List Nat
deriving DecidableEq, Repr

/-- MAX_JSON_RETRIES in agents.py. -/
def MAX_JSON_RETRIES : Nat := 5

/-- Python str.zfill 2: pad a decimal string with leading zeros to width 2,
used for the dummy dates in the fallback expansions of agents.py. -/
def zfill2 (s : String) : String :=
  if s.length ≥ 2 then s else String.mk (List.replicate (2 - s.length) '0') ++ s

/-- The dummy date written into mock day i (0-based), from agents.py. -/
def syntheticDate (i : Nat) : String :=
  "2025-01-" ++ zfill2 (toString (i + 1))

/-- The day_name written into mock day i by the quota fallback branch of
run_planning_agent_gemini. -/
def mockDayName (templateName : String) (i : Nat) : String :=
  "Day " ++ toString (i + 1) ++ ": Demo based on " ++ templateName

/-- The day_name written into mock day i by get_mock_itinerary_with_expansion. -/
def demoDayName (i : Nat) : String :=
  "Day " ++ toString (i + 1) ++ ": DEMO (JSON Error Fallback)"

/-- The expansion loop shared by the quota fallback branch of
run_planning_agent_gemini and by get_mock_itinerary_with_expansion: for each
index, copy the template day dict, overwrite day_name and date, and
re-validate the clone (Day.model_validate, modelled by the validate oracle);
a validation failure aborts the whole expansion with None. First argument of
the pair of Nat arguments is how many days remain to build, second is the
current index i. -/
def buildMockDays (validate : Day → Option Day) (template : Day)
    (name : Nat → String) : Nat → Nat → Option (List Day)
  | 0, _ => some []
  | n + 1, i =>
    let d : Day := { template with day_name := name i, date := syntheticDate i }
    match validate d with
    | some newDay =>
      match buildMockDays validate template name n (i + 1) with
      | some rest => some (newDay :: rest)
      | none => none
    | none => none

/-- Shared shape of the two fallback synthesis paths in agents.py: load the
fallback document, require a non-empty day list, expand the first day to the
requested count, and overwrite total_days, destination and main_theme. -/
def expandFallback (fallback : Option TravelItinerary) (validate : Day → Option Day)
    (destination : String) (days : Nat) (theme : String)
    (name : String → Nat → String) (themeLabel : String → String) :
    Option TravelItinerary :=
  match fallback with
  | none => none
  | some fallback_data =>
    match fallback_data.daily_itinerary with
    | [] => none
    | templateDay :: _ =>
      match buildMockDays validate templateDay (name templateDay.day_name) days 0 with
      | none => none
      | some new_itinerary =>
        some { fallback_data with
                 daily_itinerary := new_itinerary,
                 total_days := days,
                 destination := destination,
                 main_theme := themeLabel theme }

/-- The quota (ResourceExhausted) fallback synthesis inlined in
run_planning_agent_gemini, lines 112-142 of agents.py. -/
def quotaFallback (fallback : Option TravelItinerary) (validate : Day → Option Day)
    (destination : String) (days : Nat) (theme : String) : Option TravelItinerary :=
  expandFallback fallback validate destination days theme
    (fun templateName i => mockDayName templateName i)
    (fun theme => "[MOCK] " ++ theme)

/-- get_mock_itinerary_with_expansion from agents.py: load the mock data and
expand it to the requested number of days, labelling the theme with the
retry-failure marker. -/
def get_mock_itinerary_with_expansion (fallback : Option TravelItinerary)
    (validate : Day → Option Day) (destination : String) (days : Nat)
    (theme : String) : Option TravelItinerary :=
  expandFallback fallback validate destination days theme
    (fun _ i => demoDayName i)
    (fun theme => "[MOCK/RETRY FAIL] " ++ theme)

/-- The for-attempt-in-range loop of run_planning_agent_gemini. The fuel
argument is MAX_JSON_RETRIES minus the current attempt index; calls and
sleeps accumulate the observable effects so far. -/
def planLoop (llm : Nat → LLMOutcome) (fallback : Option TravelItinerary)
    (validate : Day → Option Day) (destination : String) (days : Nat)
    (theme : String) (delayMs : Nat) :
    Nat → Nat → Nat → List Nat → PlanRun
  | 0, _, calls, sleeps => ⟨PlanResult.failed, calls, sleeps⟩
  | fuel + 1, attempt, calls, sleeps =>
    match llm attempt with
    | LLMOutcome.ok it => ⟨PlanResult.ok it, calls + 1, sleeps⟩
    | LLMOutcome.serviceUnavailable =>
      if attempt < MAX_JSON_RETRIES - 1 then
        planLoop llm fallback validate destination days theme delayMs
          fuel (attempt + 1) (calls + 1) (sleeps ++ [delayMs])
      else ⟨PlanResult.failed, calls + 1, sleeps⟩
    | LLMOutcome.resourceExhausted =>
      match quotaFallback fallback validate destination days theme with
      | some it => ⟨PlanResult.ok it, calls + 1, sleeps⟩
      | none => ⟨PlanResult.failed, calls + 1, sleeps⟩
    | LLMOutcome.otherError => ⟨PlanResult.transientRetry, calls + 1, sleeps⟩

/-- run_planning_agent_gemini from agents.py. clientOk models the guard on
the cached Gemini client and model name; llm is the oracle giving the outcome
of each generate_content attempt; fallback is the result of
load_fallback_itinerary; validate is Day.model_validate on a day dict;
delayMs is GEMINI_RETRY_DELAY_MS. -/
def run_planning_agent_gemini (clientOk : Bool) (llm : Nat → LLMOutcome)
    (fallback : Option TravelItinerary) (validate : Day → Option Day)
    (destination : String) (days : Nat) (theme : String) (delayMs : Nat) :
    PlanRun :=
  if clientOk then
    planLoop llm fallback validate destination days theme delayMs
      MAX_JSON_RETRIES 0 0 []
  else ⟨PlanResult.failed, 0, []⟩

/-- MAX_APP_RETRIES in app.py (default 3). -/
def MAX_APP_RETRIES : Nat := 3

/-- Observable behaviour of the outer retry controller of app.py main for one
user trigger: how many times the TransientRetryError signal was caught, the
waits performed before retries (each entry one configured RETRY_DELAY_S unit),
and the itinerary finally stored (None when generation failed terminally). -/
structure OuterRun where
  catches : Nat
  waits : List Nat
  result : Option TravelItinerary
deriving DecidableEq, Repr

/-- The generation block of app.py main, iterated across st.rerun passes.
gen gives the outcome of the n-th invocation of run_planning_agent_gemini;
mock is the result of get_mock_itinerary_with_expansion at the current inputs;
delay is RETRY_DELAY_S. The fuel argument is MAX_APP_RETRIES minus the
current app_retry_count, which the controller keeps in session state. -/
def outerLoop (gen : Nat → PlanResult) (mock : Option TravelItinerary)
    (delay : Nat) : Nat → Nat → Nat → List Nat → OuterRun
  | 0, _, catches, waits => ⟨catches, waits, none⟩
  | fuel + 1, attempt, catches, waits =>
    match gen attempt with
    | PlanResult.ok it => ⟨catches, waits, some it⟩
    | PlanResult.failed => ⟨catches, waits, none⟩
    | PlanResult.transientRetry =>
      if catches + 1 < MAX_APP_RETRIES then
        outerLoop gen mock delay fuel (attempt + 1) (catches + 1) (waits ++ [delay])
      else ⟨catches + 1, waits, mock⟩

/-- One user trigger of the outer retry controller in app.py main:
app_retry_count starts at 0 and each caught TransientRetryError increments
it; below MAX_APP_RETRIES the controller schedules a delayed rerun, at
MAX_APP_RETRIES it substitutes the fallback expansion. -/
def outerController (gen : Nat → PlanResult) (mock : Option TravelItinerary)
    (delay : Nat) : OuterRun :=
  outerLoop gen mock delay MAX_APP_RETRIES 0 0 []

/-- Outcome of the single Gemini text-summary call in
generate_daily_summary_audio. -/
inductive SummaryOutcome where
  | ok (text : String)
  | err
deriving DecidableEq, Repr

/-- Outcome of one synthesize_speech attempt in generate_daily_summary_audio,
as discriminated by its except clauses: audio bytes, a ServiceUnavailable
(503) exception, the distinguished 403 API-not-enabled exception, or any
other exception. -/
inductive TTSOutcome where
  | ok (audio : List Nat)
  | serviceUnavailable
  | apiNotEnabled403
  | otherError
deriving DecidableEq, Repr

/-- Observable behaviour of one call of generate_daily_summary_audio: the
returned bytes (None on failure), how many LLM summary calls and TTS attempts
were made, and the sleeps performed inside the TTS retry loop (the source
performs none: retries are immediate). -/
structure AudioRun where
  result : Option (List Nat)
  summaryCalls : Nat
  ttsCalls : Nat
  ttsSleeps : List Nat
deriving DecidableEq, Repr

/-- MAX_TTS_RETRIES in agents.py. -/
def MAX_TTS_RETRIES : Nat := 2

/-- The for-attempt-in-range TTS retry loop of generate_daily_summary_audio:
success returns the bytes; ServiceUnavailable retries immediately unless the
attempt is the last; any other failure (including the 403 API-not-enabled
condition) returns None at once. Returns the result and the number of
attempts made. -/
def ttsLoop (tts : Nat → TTSOutcome) : Nat → Nat → Nat → Option (List Nat) × Nat
  | 0, _, calls => (none, calls)
  | fuel + 1, attempt, calls =>
    match tts attempt with
    | TTSOutcome.ok audio => (some audio, calls + 1)
    | TTSOutcome.serviceUnavailable =>
      if attempt = MAX_TTS_RETRIES - 1 then (none, calls + 1)
      else ttsLoop tts fuel (attempt + 1) (calls + 1)
    | TTSOutcome.apiNotEnabled403 => (none, calls + 1)
    | TTSOutcome.otherError => (none, calls + 1)

/-- generate_daily_summary_audio from agents.py. ttsAvailable models the
GCP_TTS_AVAILABLE import guard, clientOk the Gemini client guard; summary is
the outcome of the single Gemini text-summary call, tts the oracle for the
synthesize_speech attempts. -/
def generate_daily_summary_audio (ttsAvailable : Bool) (clientOk : Bool)
    (summary : SummaryOutcome) (tts : Nat → TTSOutcome) : AudioRun :=
  if ¬ ttsAvailable then ⟨none, 0, 0, []⟩
  else if ¬ clientOk then ⟨none, 0, 0, []⟩
  else
    match summary with
    | SummaryOutcome.err => ⟨none, 1, 0, []⟩
    | SummaryOutcome.ok _ =>
      let r := ttsLoop tts MAX_TTS_RETRIES 0 0
      ⟨r.1, 1, r.2, []⟩

/-- One leg of a directions route as consumed by calculate_travel_time in
tools.py: the duration text and value (seconds), the distance text, and the
steps list, each step carrying its travel_mode key when present. -/
structure RouteLeg where
  duration_text : String
  duration_value : Nat
  distance_text : String
  steps : List (Option String)
deriving DecidableEq, Repr

/-- Outcome of one directions query for one mode in calculate_travel_time:
a usable first route leg (status OK with a non-empty routes list), a
no-result response (falls through to the next mode), or a network failure
(RequestException, also falls through). -/
inductive ModeResult where
  | route (leg : RouteLeg)
  | noRoute
  | netError
deriving DecidableEq, Repr

/-- Python str.capitalize: first character upper-cased, the rest lower-cased. -/
def capitalize (s : String) : String :=
  match s.data with
  | [] => ""
  | c :: cs => String.mk (c.toUpper :: cs.map Char.toLower)

/-- The summary string calculate_travel_time builds for the first mode that
yields a valid route: walking legs over 1200 seconds are relabelled
Transit/Bus with an advisory note; transit legs report the travel_mode of the
first step (defaulting to Transit). -/
def modeSummary (mode : String) (leg : RouteLeg) : String :=
  let pair :=
    if mode = "walking" ∧ leg.duration_value > 1200 then
      ("Transit/Bus", "Consider public transport or taxi since walking is long.")
    else if mode = "transit" then
      (match leg.steps with
       | [] => "Transit"
       | s :: _ => s.getD "Transit",
       "Requires purchasing a ticket.")
    else (capitalize mode, "")
  "Travel time: " ++ leg.duration_text ++ ". Distance: " ++ leg.distance_text ++
    ". Transport: " ++ pair.1 ++ ". Note: " ++
    (if pair.2 = "" then "None" else pair.2) ++ "."

/-- The mode loop of calculate_travel_time: try each mode in order, return
the summary of the first valid route; both a no-result response and a network
failure fall through to the next mode. Also returns the list of modes that
were actually queried. -/
def travelLoop (query : String → ModeResult) : List String → Option String × List String
  | [] => (none, [])
  | mode :: rest =>
    match query mode with
    | ModeResult.route leg => (some (modeSummary mode leg), [mode])
    | ModeResult.noRoute =>
      let r := travelLoop query rest
      (r.1, mode :: r.2)
    | ModeResult.netError =>
      let r := travelLoop query rest
      (r.1, mode :: r.2)

/-- The fixed mode preference order of calculate_travel_time. -/
def modes_to_try : List String := ["walking", "transit", "driving"]

/-- calculate_travel_time from tools.py. hasKey models the MAPS_API_KEY
guard; query is the oracle for one directions request per mode. Returns the
summary string and the list of modes queried. -/
def calculate_travel_time (hasKey : Bool) (query : String → ModeResult)
    (from_location to_location : String) : String × List String :=
  if ¬ hasKey then
    ("Error: GOOGLE_MAPS_API_KEY is missing. Cannot calculate real travel time between "
      ++ from_location ++ " and " ++ to_location ++ ".", [])
  else
    match travelLoop query modes_to_try with
    | (some s, qs) => (s, qs)
    | (none, qs) =>
      ("Travel time: Route not found for walking, transit, or driving between "
        ++ from_location ++ " and " ++ to_location ++ ". Check locations.", qs)

/-- Concrete activity used to instantiate theorems on closed inputs. -/
def sampleActivity : Activity :=
  { name := "City Museum", short_description := "A museum in the old town.",
    location := "Main Square 1", start_time := "09:00", end_time := "11:00",
    estimated_cost := "Free" }

/-- Concrete logistics record used to instantiate theorems on closed inputs. -/
def sampleLogistics : Logistics :=
  { transport_type := "By foot", estimated_duration := "15 min",
    additional_notes := none }

/-- Concrete day used to instantiate theorems on closed inputs. -/
def sampleDay : Day :=
  { date := "2024-05-01", day_name := "Old Town Walk",
    activities := [sampleActivity], logistics_between_activities := [sampleLogistics] }

/-- Concrete itinerary used to instantiate theorems on closed inputs. -/
def sampleItinerary : TravelItinerary :=
  { destination := "Rome", total_days := 1, main_theme := "Historical and Cultural",
    daily_itinerary := [sampleDay] }

/-- The validator oracle corresponding to the actual behaviour of
Day.model_validate on a day dict obtained by model_dump of a valid Day with
two string fields rewritten: validation succeeds and returns an equal model. -/
def idValidate : Day → Option Day := fun d => some d

/-- Oracle for witnesses: a 503 on the first attempt, then a 429. -/
def llm503Then429 : Nat → LLMOutcome :=
  fun i => if i = 0 then LLMOutcome.serviceUnavailable else LLMOutcome.resourceExhausted

/-- Oracle for witnesses: a 503 on the first attempt, then a generic failure. -/
def llm503ThenOther : Nat → LLMOutcome :=
  fun i => if i = 0 then LLMOutcome.serviceUnavailable else LLMOutcome.otherError

/-- A validator oracle that rejects the clone carrying the second synthetic
date, modelling a mock-day validation failure partway through expansion. -/
def failSecondValidate : Day → Option Day :=
  fun d => if d.date = syntheticDate 1 then none else some d

/-- Oracle for witnesses: the first generation raises TransientRetryError,
the second succeeds with the sample itinerary. -/
def genRetryThenOk : Nat → PlanResult :=
  fun i => if i = 0 then PlanResult.transientRetry else PlanResult.ok sampleItinerary

/-- Oracle for witnesses: a 503 from the TTS service on the first attempt,
audio bytes on the second. -/
def tts503ThenOk : Nat → TTSOutcome :=
  fun i => if i = 0 then TTSOutcome.serviceUnavailable else TTSOutcome.ok [77, 80, 51]

/-- A long walking leg (25 minutes), above the 1200 second threshold. -/
def walkLongLeg : RouteLeg :=
  { duration_text := "25 mins", duration_value := 1500, distance_text := "2.0 km",
    steps := [] }

/-- A transit leg whose first step carries the BUS travel mode. -/
def transitLeg : RouteLeg :=
  { duration_text := "12 mins", duration_value := 700, distance_text := "3.1 km",
    steps := [some "BUS", some "WALKING"] }

/-- A driving leg. -/
def driveLeg : RouteLeg :=
  { duration_text := "8 mins", duration_value := 480, distance_text := "3.0 km",
    steps := [] }

/-- Oracle for witnesses: every mode yields a route; walking is the long leg. -/
def queryAllModes : String → ModeResult :=
  fun m => if m = "walking" then ModeResult.route walkLongLeg
    else if m = "transit" then ModeResult.route transitLeg
    else ModeResult.route driveLeg

/-- Oracle for witnesses: only transit yields a route. -/
def queryTransitOnly : String → ModeResult :=
  fun m => if m = "transit" then ModeResult.route transitLeg else ModeResult.netError

/-- Oracle for witnesses: only driving yields a route. -/
def queryDrivingOnly : String → ModeResult :=
  fun m => if m = "driving" then ModeResult.route driveLeg else ModeResult.noRoute

/-- Oracle for witnesses: every mode fails. -/
def queryNothing : String → ModeResult := fun _ => ModeResult.netError

section Lemmas

variable {validate : Day → Option Day}

/-- When every clone re-validates to itself, the expansion loop produces
exactly the list of rewritten copies of the template. -/
lemma buildMockDays_eq_of_validate_id
    (hval : ∀ d, validate d = some d) (template : Day) (name : Nat → String) :
    ∀ n i, buildMockDays validate template name n i =
      some ((List.range n).map fun j =>
        { template with day_name := name (i + j), date := syntheticDate (i + j) })
  | 0, i => by simp [buildMockDays]
  | n + 1, i => by
    rw [buildMockDays, hval,
      buildMockDays_eq_of_validate_id hval template name n (i + 1)]
    simp only [List.range_succ_eq_map, List.map_cons, List.map_map, Nat.add_zero,
      Option.some.injEq, List.cons.injEq, true_and, and_true, eq_self_iff_true]
    refine List.map_congr_left fun j _ => ?_
    have h : (i + 0).succ + j = (i + j).succ := by omega
    simp only [Function.comp_apply, Nat.add_succ, h]

/-- The expansion loop never returns a partial list: a successful expansion
has exactly the requested number of days. -/
lemma buildMockDays_some_length (template : Day) (name : Nat → String) :
    ∀ n i l, buildMockDays validate template name n i = some l → l.length = n := by
  intro n
  induction n with
  | zero => intro i l h; simp [buildMockDays] at h; simp [← h]
  | succ n ih =>
    intro i l h
    rw [buildMockDays] at h
    rcases hv : validate { template with day_name := name i, date := syntheticDate i } with _ | d
    · rw [hv] at h; exact absurd h (by simp)
    · rw [hv] at h
      rcases hr : buildMockDays validate template name n (i + 1) with _ | rest
      · rw [hr] at h; exact absurd h (by simp)
      · rw [hr] at h
        simp only [Option.some.injEq] at h
        subst h
        simp [ih (i + 1) rest hr]

/-- Closed form of expandFallback when the document has a non-empty day list
and every clone re-validates. -/
lemma expandFallback_eq (hval : ∀ d, validate d = some d) (fd : TravelItinerary)
    (t : Day) (rest : List Day) (hlist : fd.daily_itinerary = t :: rest)
    (dest theme : String) (days : Nat) (name : String → Nat → String)
    (themeLabel : String → String) :
    expandFallback (some fd) validate dest days theme name themeLabel =
      some { destination := dest, total_days := days,
             main_theme := themeLabel theme,
             daily_itinerary := (List.range days).map fun i =>
               { t with day_name := name t.day_name i, date := syntheticDate i } } := by
  simp [expandFallback, hlist, buildMockDays_eq_of_validate_id hval]

/-- Closed form of the quota fallback synthesis of run_planning_agent_gemini
when the document has a non-empty day list and every clone re-validates. -/
lemma quotaFallback_eq (hval : ∀ d, validate d = some d) (fd : TravelItinerary)
    (t : Day) (rest : List Day) (hlist : fd.daily_itinerary = t :: rest)
    (dest theme : String) (days : Nat) :
    quotaFallback (some fd) validate dest days theme =
      some { destination := dest, total_days := days,
             main_theme := "[MOCK] " ++ theme,
             daily_itinerary := (List.range days).map fun i =>
               { t with day_name := mockDayName t.day_name i,
                        date := syntheticDate i } } :=
  expandFallback_eq hval fd t rest hlist dest theme days _ _

/-- Closed form of get_mock_itinerary_with_expansion when the document has a
non-empty day list and every clone re-validates. -/
lemma get_mock_eq (hval : ∀ d, validate d = some d) (fd : TravelItinerary)
    (t : Day) (rest : List Day) (hlist : fd.daily_itinerary = t :: rest)
    (dest theme : String) (days : Nat) :
    get_mock_itinerary_with_expansion (some fd) validate dest days theme =
      some { destination := dest, total_days := days,
             main_theme := "[MOCK/RETRY FAIL] " ++ theme,
             daily_itinerary := (List.range days).map fun i =>
               { t with day_name := demoDayName i, date := syntheticDate i } } :=
  expandFallback_eq hval fd t rest hlist dest theme days _ _

/-- In the outer controller, the number of caught transient-retry signals is
bounded by the starting count plus the remaining fuel. -/
lemma outerLoop_catches_le (gen : Nat → PlanResult) (mock : Option TravelItinerary)
    (delay : Nat) : ∀ fuel attempt catches waits,
    (outerLoop gen mock delay fuel attempt catches waits).catches ≤ catches + fuel := by
  intro fuel
  induction fuel with
  | zero => intro a c w; simp [outerLoop]
  | succ fuel ih =>
    intro a c w
    rw [outerLoop]
    cases hg : gen a with
    | ok it => simp
    | failed => simp
    | transientRetry =>
      simp only
      split
      · exact le_trans (ih (a + 1) (c + 1) (w ++ [delay])) (by omega)
      · simp

end Lemmas

/-- Claim C2: when every one of the MAX_JSON_RETRIES LLM attempts raises a
service-unavailable (503) failure, run_planning_agent_gemini makes exactly
MAX_JSON_RETRIES attempts, sleeps the configured delay between consecutive
attempts (MAX_JSON_RETRIES - 1 sleeps), and returns None. -/
theorem claim_C2_503_exhaustion_returns_null (llm : Nat → LLMOutcome)
    (fallback : Option TravelItinerary) (validate : Day → Option Day)
    (dest theme : String) (days delayMs : Nat)
    (h : ∀ i, i < MAX_JSON_RETRIES → llm i = LLMOutcome.serviceUnavailable) :
    run_planning_agent_gemini true llm fallback validate dest days theme delayMs =
      ⟨PlanResult.failed, MAX_JSON_RETRIES,
        List.replicate (MAX_JSON_RETRIES - 1) delayMs⟩ := by
  simp [run_planning_agent_gemini, planLoop, h, MAX_JSON_RETRIES, List.replicate]

/-- Witness for claim C2 at a concrete oracle that always raises 503. -/
theorem claim_C2_witness :
    run_planning_agent_gemini true (fun _ => LLMOutcome.serviceUnavailable)
        (some sampleItinerary) idValidate "Madrid, Spain" 4
        "Historical and Cultural" 1000 =
      ⟨PlanResult.failed, MAX_JSON_RETRIES,
        List.replicate (MAX_JSON_RETRIES - 1) 1000⟩ :=
  claim_C2_503_exhaustion_returns_null (fun _ => LLMOutcome.serviceUnavailable)
    (some sampleItinerary) idValidate "Madrid, Spain" "Historical and Cultural"
    4 1000 (fun _ _ => rfl)

/-- Claim C1: when the LLM attempt at position k raises a quota (429 /
resource exhausted) failure (after k preceding 503 retries, the only way the
loop reaches attempt k), run_planning_agent_gemini makes no further LLM
attempt (exactly k + 1 calls) and, provided the fallback store loads a
document with a non-empty day list (and each clone re-validates, which
Day.model_validate on a dumped valid Day always does), returns an itinerary
whose main_theme is the requested theme prefixed with the [MOCK] marker,
expanded to the requested day count. -/
theorem claim_C1_quota_shortcircuit (llm : Nat → LLMOutcome)
    (fd : TravelItinerary) (t : Day) (rest : List Day)
    (validate : Day → Option Day) (dest theme : String) (days delayMs k : Nat)
    (hk : k < MAX_JSON_RETRIES)
    (hpre : ∀ i, i < k → llm i = LLMOutcome.serviceUnavailable)
    (hq : llm k = LLMOutcome.resourceExhausted)
    (hlist : fd.daily_itinerary = t :: rest)
    (hval : ∀ d, validate d = some d) :
    run_planning_agent_gemini true llm (some fd) validate dest days theme delayMs =
      ⟨PlanResult.ok
          { destination := dest, total_days := days,
            main_theme := "[MOCK] " ++ theme,
            daily_itinerary := (List.range days).map fun i =>
              { t with day_name := mockDayName t.day_name i,
                       date := syntheticDate i } },
        k + 1, List.replicate k delayMs⟩ := by
  have hqf := quotaFallback_eq hval fd t rest hlist dest theme days
  have hk5 : k < 5 := hk
  interval_cases k <;>
    simp [run_planning_agent_gemini, planLoop, hpre, hq, hqf, MAX_JSON_RETRIES,
      List.replicate]

/-- Witness for claim C1: one 503 and then a 429 at attempt 1, on the sample
fallback document. -/
theorem claim_C1_witness :
    run_planning_agent_gemini true llm503Then429 (some sampleItinerary)
        idValidate "Paris, France" 2 "Food and Leisure" 1000 =
      ⟨PlanResult.ok
          { destination := "Paris, France", total_days := 2,
            main_theme := "[MOCK] " ++ "Food and Leisure",
            daily_itinerary := (List.range 2).map fun i =>
              { sampleDay with day_name := mockDayName sampleDay.day_name i,
                               date := syntheticDate i } },
        1 + 1, List.replicate 1 1000⟩ :=
  claim_C1_quota_shortcircuit llm503Then429 sampleItinerary sampleDay []
    idValidate "Paris, France" "Food and Leisure" 2 1000 1 (by decide)
    (by decide) (by decide) rfl (fun _ => rfl)

/-- Claim C3: when the LLM attempt at position k fails with any failure other
than service-unavailable or quota-exhausted (schema validation failure,
malformed JSON, any unexpected exception), run_planning_agent_gemini neither
retries internally nor returns None: it raises TransientRetryError to its
caller after exactly k + 1 attempts. -/
theorem claim_C3_other_failure_raises (llm : Nat → LLMOutcome)
    (fallback : Option TravelItinerary) (validate : Day → Option Day)
    (dest theme : String) (days delayMs k : Nat)
    (hk : k < MAX_JSON_RETRIES)
    (hpre : ∀ i, i < k → llm i = LLMOutcome.serviceUnavailable)
    (he : llm k = LLMOutcome.otherError) :
    run_planning_agent_gemini true llm fallback validate dest days theme delayMs =
      ⟨PlanResult.transientRetry, k + 1, List.replicate k delayMs⟩ := by
  have hk5 : k < 5 := hk
  interval_cases k <;>
    simp [run_planning_agent_gemini, planLoop, hpre, he, MAX_JSON_RETRIES,
      List.replicate]

/-- Witness for claim C3: one 503 and then a validation-class failure at
attempt 1. -/
theorem claim_C3_witness :
    run_planning_agent_gemini true llm503ThenOther (some sampleItinerary)
        idValidate "Rome" 3 "Adventure and Nature" 1000 =
      ⟨PlanResult.transientRetry, 1 + 1, List.replicate 1 1000⟩ :=
  claim_C3_other_failure_raises llm503ThenOther (some sampleItinerary)
    idValidate "Rome" "Adventure and Nature" 3 1000 1 (by decide) (by decide)
    (by decide)

/-- Claim C5: for days ≥ 1, when the fallback document loads with a non-empty
day list and each clone re-validates, get_mock_itinerary_with_expansion
returns exactly the itinerary whose day list is the requested number of
copies of the first template day, each with the index-tagged day_name and the
synthetic date 2025-01-(i+1), with total_days equal to days, destination
overwritten, and main_theme equal to the theme prefixed with the mock
retry-failure marker. -/
theorem claim_C5_expansion_shape (fd : TravelItinerary) (t : Day)
    (rest : List Day) (validate : Day → Option Day) (dest theme : String)
    (days : Nat) (_hdays : 1 ≤ days) (hlist : fd.daily_itinerary = t :: rest)
    (hval : ∀ d, validate d = some d) :
    get_mock_itinerary_with_expansion (some fd) validate dest days theme =
      some { destination := dest, total_days := days,
             main_theme := "[MOCK/RETRY FAIL] " ++ theme,
             daily_itinerary := (List.range days).map fun i =>
               { t with day_name := demoDayName i, date := syntheticDate i } } :=
  get_mock_eq hval fd t rest hlist dest theme days

/-- Witness for claim C5 at three days on the sample fallback document. -/
theorem claim_C5_witness :
    get_mock_itinerary_with_expansion (some sampleItinerary) idValidate
        "Lisbon" 3 "Food and Leisure" =
      some { destination := "Lisbon", total_days := 3,
             main_theme := "[MOCK/RETRY FAIL] " ++ "Food and Leisure",
             daily_itinerary := (List.range 3).map fun i =>
               { sampleDay with day_name := demoDayName i,
                                date := syntheticDate i } } :=
  claim_C5_expansion_shape sampleItinerary sampleDay [] idValidate "Lisbon"
    "Food and Leisure" 3 (by decide) rfl (fun _ => rfl)

/-- Claim C6: when the bundled fallback document is missing, unreadable or
malformed (load_fallback_itinerary returns None) or has an empty day list,
both get_mock_itinerary_with_expansion and the quota-fallback path of
run_planning_agent_gemini return None; and in no failure case is a
partially-built itinerary returned: a mock-day validation failure partway
through expansion yields None, and any itinerary either path does return has
the full requested day count. -/
theorem claim_C6_fallback_floor (validate : Day → Option Day)
    (llm : Nat → LLMOutcome) (dest theme : String) (days delayMs : Nat)
    (hq : llm 0 = LLMOutcome.resourceExhausted) :
    get_mock_itinerary_with_expansion none validate dest days theme = none
    ∧ (∀ fd : TravelItinerary, fd.daily_itinerary = [] →
        get_mock_itinerary_with_expansion (some fd) validate dest days theme = none)
    ∧ quotaFallback none validate dest days theme = none
    ∧ (∀ fd : TravelItinerary, fd.daily_itinerary = [] →
        quotaFallback (some fd) validate dest days theme = none)
    ∧ run_planning_agent_gemini true llm none validate dest days theme delayMs =
        ⟨PlanResult.failed, 1, []⟩
    ∧ (∀ fd : TravelItinerary, fd.daily_itinerary = [] →
        run_planning_agent_gemini true llm (some fd) validate dest days theme delayMs =
          ⟨PlanResult.failed, 1, []⟩)
    ∧ (∀ fd : TravelItinerary, ∀ t : Day, ∀ rest : List Day,
        fd.daily_itinerary = t :: rest →
        get_mock_itinerary_with_expansion (some fd) failSecondValidate dest 3 theme
          = none)
    ∧ (∀ fb it, get_mock_itinerary_with_expansion fb validate dest days theme
          = some it → it.daily_itinerary.length = days)
    ∧ (∀ fb it, quotaFallback fb validate dest days theme = some it →
        it.daily_itinerary.length = days) := by
  have hnone : quotaFallback none validate dest days theme = none := by
    simp [quotaFallback, expandFallback]
  have hempty : ∀ fd : TravelItinerary, fd.daily_itinerary = [] →
      quotaFallback (some fd) validate dest days theme = none := by
    intro fd h
    simp [quotaFallback, expandFallback, h]
  have hlen : ∀ (fb : Option TravelItinerary) (name : String → Nat → String)
      (themeLabel : String → String) (it : TravelItinerary),
      expandFallback fb validate dest days theme name themeLabel = some it →
      it.daily_itinerary.length = days := by
    intro fb name themeLabel it h
    rcases fb with _ | fd
    · simp [expandFallback] at h
    · rcases hl : fd.daily_itinerary with _ | ⟨t, rest⟩
      · rw [expandFallback, hl] at h; simp at h
      · rw [expandFallback, hl] at h
        simp only [] at h
        rcases hb : buildMockDays validate t (name t.day_name) days 0 with _ | l
        · rw [hb] at h; simp at h
        · rw [hb] at h
          simp only [Option.some.injEq] at h
          rw [← h]
          exact buildMockDays_some_length t (name t.day_name) days 0 l hb
  refine ⟨by simp [get_mock_itinerary_with_expansion, expandFallback],
    fun fd h => by simp [get_mock_itinerary_with_expansion, expandFallback, h],
    hnone, hempty, ?_, ?_, ?_,
    fun fb it h => hlen fb _ _ it h, fun fb it h => hlen fb _ _ it h⟩
  · simp [run_planning_agent_gemini, planLoop, hq, hnone, MAX_JSON_RETRIES]
  · intro fd h
    simp [run_planning_agent_gemini, planLoop, hq, hempty fd h, MAX_JSON_RETRIES]
  · intro fd t rest h
    have hcond : ¬ (syntheticDate 0 = syntheticDate 1) := by decide
    simp [get_mock_itinerary_with_expansion, expandFallback, h, buildMockDays,
      failSecondValidate, hcond]

/-- Witness for claim C6 at a concrete always-429 oracle. -/
theorem claim_C6_witness :
    get_mock_itinerary_with_expansion none idValidate "Rome" 3 "Historical and Cultural" = none
    ∧ (∀ fd : TravelItinerary, fd.daily_itinerary = [] →
        get_mock_itinerary_with_expansion (some fd) idValidate "Rome" 3 "Historical and Cultural" = none)
    ∧ quotaFallback none idValidate "Rome" 3 "Historical and Cultural" = none
    ∧ (∀ fd : TravelItinerary, fd.daily_itinerary = [] →
        quotaFallback (some fd) idValidate "Rome" 3 "Historical and Cultural" = none)
    ∧ run_planning_agent_gemini true (fun _ => LLMOutcome.resourceExhausted) none
        idValidate "Rome" 3 "Historical and Cultural" 1000 =
        ⟨PlanResult.failed, 1, []⟩
    ∧ (∀ fd : TravelItinerary, fd.daily_itinerary = [] →
        run_planning_agent_gemini true (fun _ => LLMOutcome.resourceExhausted)
          (some fd) idValidate "Rome" 3 "Historical and Cultural" 1000 =
          ⟨PlanResult.failed, 1, []⟩)
    ∧ (∀ fd : TravelItinerary, ∀ t : Day, ∀ rest : List Day,
        fd.daily_itinerary = t :: rest →
        get_mock_itinerary_with_expansion (some fd) failSecondValidate "Rome" 3
          "Historical and Cultural" = none)
    ∧ (∀ fb it, get_mock_itinerary_with_expansion fb idValidate "Rome" 3
          "Historical and Cultural" = some it → it.daily_itinerary.length = 3)
    ∧ (∀ fb it, quotaFallback fb idValidate "Rome" 3 "Historical and Cultural"
          = some it → it.daily_itinerary.length = 3) :=
  claim_C6_fallback_floor idValidate (fun _ => LLMOutcome.resourceExhausted)
    "Rome" "Historical and Cultural" 3 1000 rfl

/-- Claim C9: in both fallback synthesis paths, every synthesized Day is a
copy of the first template day in which only day_name and date are rewritten;
activities and logistics_between_activities are equal to the corresponding
fields of the template day. -/
theorem claim_C9_clone_frame (fd : TravelItinerary) (t : Day) (rest : List Day)
    (validate : Day → Option Day) (dest theme : String) (days : Nat)
    (hlist : fd.daily_itinerary = t :: rest) (hval : ∀ d, validate d = some d) :
    (∀ it, quotaFallback (some fd) validate dest days theme = some it →
      ∀ d ∈ it.daily_itinerary, ∃ i, i < days ∧
        d.day_name = mockDayName t.day_name i ∧ d.date = syntheticDate i ∧
        d.activities = t.activities ∧
        d.logistics_between_activities = t.logistics_between_activities)
    ∧ (∀ it, get_mock_itinerary_with_expansion (some fd) validate dest days theme
          = some it →
      ∀ d ∈ it.daily_itinerary, ∃ i, i < days ∧
        d.day_name = demoDayName i ∧ d.date = syntheticDate i ∧
        d.activities = t.activities ∧
        d.logistics_between_activities = t.logistics_between_activities) := by
  constructor
  · intro it hit d hd
    rw [quotaFallback_eq hval fd t rest hlist] at hit
    simp only [Option.some.injEq] at hit
    rw [← hit] at hd
    simp only [List.mem_map, List.mem_range] at hd
    obtain ⟨i, hi, hdi⟩ := hd
    exact ⟨i, hi, by rw [← hdi], by rw [← hdi], by rw [← hdi], by rw [← hdi]⟩
  · intro it hit d hd
    rw [get_mock_eq hval fd t rest hlist] at hit
    simp only [Option.some.injEq] at hit
    rw [← hit] at hd
    simp only [List.mem_map, List.mem_range] at hd
    obtain ⟨i, hi, hdi⟩ := hd
    exact ⟨i, hi, by rw [← hdi], by rw [← hdi], by rw [← hdi], by rw [← hdi]⟩

/-- Witness for claim C9 on the sample fallback document with two days. -/
theorem claim_C9_witness :
    (∀ it, quotaFallback (some sampleItinerary) idValidate "Rome" 2 "Food and Leisure"
        = some it →
      ∀ d ∈ it.daily_itinerary, ∃ i, i < 2 ∧
        d.day_name = mockDayName sampleDay.day_name i ∧ d.date = syntheticDate i ∧
        d.activities = sampleDay.activities ∧
        d.logistics_between_activities = sampleDay.logistics_between_activities)
    ∧ (∀ it, get_mock_itinerary_with_expansion (some sampleItinerary) idValidate
          "Rome" 2 "Food and Leisure" = some it →
      ∀ d ∈ it.daily_itinerary, ∃ i, i < 2 ∧
        d.day_name = demoDayName i ∧ d.date = syntheticDate i ∧
        d.activities = sampleDay.activities ∧
        d.logistics_between_activities = sampleDay.logistics_between_activities) :=
  claim_C9_clone_frame sampleItinerary sampleDay [] idValidate "Rome"
    "Food and Leisure" 2 rfl (fun _ => rfl)

/-- Claim C4: in the outer retry controller, every caught transient-retry
signal increments the retry counter; while the counter stays below
MAX_APP_RETRIES the controller schedules a delayed full restart of
generation, and on reaching MAX_APP_RETRIES it stops retrying and invokes the
fallback expansion as the terminal substitute result, so the signal is caught
at most MAX_APP_RETRIES times per user trigger. -/
theorem claim_C4_outer_retry_budget (mock : Option TravelItinerary) (delay : Nat)
    (fb : Option TravelItinerary) (validate : Day → Option Day)
    (dest theme : String) (days : Nat) :
    (∀ gen, (outerController gen mock delay).catches ≤ MAX_APP_RETRIES)
    ∧ (∀ gen it, gen 0 = PlanResult.transientRetry → gen 1 = PlanResult.ok it →
        outerController gen mock delay = ⟨1, [delay], some it⟩)
    ∧ (∀ gen, (∀ i, gen i = PlanResult.transientRetry) →
        outerController gen
            (get_mock_itinerary_with_expansion fb validate dest days theme) delay =
          ⟨MAX_APP_RETRIES, List.replicate (MAX_APP_RETRIES - 1) delay,
            get_mock_itinerary_with_expansion fb validate dest days theme⟩) := by
  refine ⟨fun gen => outerLoop_catches_le gen mock delay MAX_APP_RETRIES 0 0 [],
    fun gen it h0 h1 => ?_, fun gen h => ?_⟩
  · simp [outerController, outerLoop, h0, h1, MAX_APP_RETRIES]
  · simp [outerController, outerLoop, h, MAX_APP_RETRIES, List.replicate]

/-- Witness for claim C4 at concrete generation oracles. -/
theorem claim_C4_witness :
    (outerController (fun _ => PlanResult.transientRetry) none 2).catches ≤ MAX_APP_RETRIES
    ∧ outerController genRetryThenOk none 2 = ⟨1, [2], some sampleItinerary⟩
    ∧ outerController (fun _ => PlanResult.transientRetry)
          (get_mock_itinerary_with_expansion (some sampleItinerary) idValidate
            "Rome" 2 "Food and Leisure") 2 =
        ⟨MAX_APP_RETRIES, List.replicate (MAX_APP_RETRIES - 1) 2,
          get_mock_itinerary_with_expansion (some sampleItinerary) idValidate
            "Rome" 2 "Food and Leisure"⟩ :=
  ⟨(claim_C4_outer_retry_budget none 2 none idValidate "Rome" "Food and Leisure" 2).1
      (fun _ => PlanResult.transientRetry),
    (claim_C4_outer_retry_budget none 2 none idValidate "Rome" "Food and Leisure" 2).2.1
      genRetryThenOk sampleItinerary rfl rfl,
    (claim_C4_outer_retry_budget none 2 (some sampleItinerary) idValidate "Rome"
        "Food and Leisure" 2).2.2
      (fun _ => PlanResult.transientRetry) (fun _ => rfl)⟩

/-- Claim C7: in generate_daily_summary_audio a failure of the LLM
text-summary call is terminal (None with no TTS attempt); the TTS call is
attempted at most MAX_TTS_RETRIES times with no sleeps between attempts;
service-unavailable is the only retried TTS failure; any other TTS failure on
the first attempt (including the distinguished 403 API-not-enabled condition)
returns None after exactly one attempt; and a success on the second attempt
after one service-unavailable failure returns the audio bytes. -/
theorem claim_C7_audio_retry_ladder (summaryText : String)
    (tts : Nat → TTSOutcome) (audio : List Nat) :
    (∀ tts2, generate_daily_summary_audio true true SummaryOutcome.err tts2 =
      ⟨none, 1, 0, []⟩)
    ∧ (tts 0 = TTSOutcome.apiNotEnabled403 ∨ tts 0 = TTSOutcome.otherError →
        generate_daily_summary_audio true true (SummaryOutcome.ok summaryText) tts =
          ⟨none, 1, 1, []⟩)
    ∧ (tts 0 = TTSOutcome.serviceUnavailable → tts 1 = TTSOutcome.ok audio →
        generate_daily_summary_audio true true (SummaryOutcome.ok summaryText) tts =
          ⟨some audio, 1, 2, []⟩)
    ∧ (tts 0 = TTSOutcome.serviceUnavailable → tts 1 = TTSOutcome.serviceUnavailable →
        generate_daily_summary_audio true true (SummaryOutcome.ok summaryText) tts =
          ⟨none, 1, 2, []⟩)
    ∧ (∀ tts2 s, (generate_daily_summary_audio true true s tts2).ttsCalls ≤
        MAX_TTS_RETRIES)
    ∧ (∀ tts2 s, (generate_daily_summary_audio true true s tts2).ttsSleeps = []) := by
  refine ⟨fun tts2 => by simp [generate_daily_summary_audio],
    fun h => ?_, fun h0 h1 => ?_, fun h0 h1 => ?_, fun tts2 s => ?_, fun tts2 s => ?_⟩
  · rcases h with h | h <;>
      simp [generate_daily_summary_audio, ttsLoop, h, MAX_TTS_RETRIES]
  · simp [generate_daily_summary_audio, ttsLoop, h0, h1, MAX_TTS_RETRIES]
  · simp [generate_daily_summary_audio, ttsLoop, h0, h1, MAX_TTS_RETRIES]
  · cases s with
    | err => simp [generate_daily_summary_audio]
    | ok text =>
      cases h0 : tts2 0 with
      | ok audio2 => simp [generate_daily_summary_audio, ttsLoop, h0, MAX_TTS_RETRIES]
      | serviceUnavailable =>
        cases h1 : tts2 1 <;>
          simp [generate_daily_summary_audio, ttsLoop, h0, h1, MAX_TTS_RETRIES]
      | apiNotEnabled403 => simp [generate_daily_summary_audio, ttsLoop, h0, MAX_TTS_RETRIES]
      | otherError => simp [generate_daily_summary_audio, ttsLoop, h0, MAX_TTS_RETRIES]
  · cases s with
    | err => simp [generate_daily_summary_audio]
    | ok text => simp [generate_daily_summary_audio]

/-- Witness for claim C7 at concrete TTS oracles: summary failure, a
non-retriable first TTS failure, a 503 then success, and a double 503. -/
theorem claim_C7_witness :
    generate_daily_summary_audio true true SummaryOutcome.err tts503ThenOk =
      ⟨none, 1, 0, []⟩
    ∧ generate_daily_summary_audio true true (SummaryOutcome.ok "A lovely day.")
        (fun _ => TTSOutcome.apiNotEnabled403) = ⟨none, 1, 1, []⟩
    ∧ generate_daily_summary_audio true true (SummaryOutcome.ok "A lovely day.")
        tts503ThenOk = ⟨some [77, 80, 51], 1, 2, []⟩
    ∧ generate_daily_summary_audio true true (SummaryOutcome.ok "A lovely day.")
        (fun _ => TTSOutcome.serviceUnavailable) = ⟨none, 1, 2, []⟩ :=
  ⟨(claim_C7_audio_retry_ladder "A lovely day." tts503ThenOk [77, 80, 51]).1
      tts503ThenOk,
    (claim_C7_audio_retry_ladder "A lovely day."
        (fun _ => TTSOutcome.apiNotEnabled403) [77, 80, 51]).2.1 (Or.inl rfl),
    (claim_C7_audio_retry_ladder "A lovely day." tts503ThenOk [77, 80, 51]).2.2.1
      rfl rfl,
    (claim_C7_audio_retry_ladder "A lovely day."
        (fun _ => TTSOutcome.serviceUnavailable) [77, 80, 51]).2.2.2.1 rfl rfl⟩

/-- Claim C8: calculate_travel_time queries walking, transit and driving in
that fixed order and returns the summary of the first mode that yields a
valid route; a walking route over 1200 seconds is relabelled Transit/Bus with
an advisory note; a transit route reports the travel mode of the first step;
and when every mode fails (no result or network error) the function returns
the descriptive not-found fallback string instead of raising. -/
theorem claim_C8_mode_order_and_relabel (from_location to_location : String) :
    (∀ query leg, query "walking" = ModeResult.route leg →
      calculate_travel_time true query from_location to_location =
        (modeSummary "walking" leg, ["walking"]))
    ∧ (∀ query leg,
        (query "walking" = ModeResult.noRoute ∨ query "walking" = ModeResult.netError) →
        query "transit" = ModeResult.route leg →
        calculate_travel_time true query from_location to_location =
          (modeSummary "transit" leg, ["walking", "transit"]))
    ∧ (∀ query leg,
        (query "walking" = ModeResult.noRoute ∨ query "walking" = ModeResult.netError) →
        (query "transit" = ModeResult.noRoute ∨ query "transit" = ModeResult.netError) →
        query "driving" = ModeResult.route leg →
        calculate_travel_time true query from_location to_location =
          (modeSummary "driving" leg, ["walking", "transit", "driving"]))
    ∧ (∀ query,
        (∀ m, query m = ModeResult.noRoute ∨ query m = ModeResult.netError) →
        calculate_travel_time true query from_location to_location =
          ("Travel time: Route not found for walking, transit, or driving between "
            ++ from_location ++ " and " ++ to_location ++ ". Check locations.",
           ["walking", "transit", "driving"]))
    ∧ (∀ leg, leg.duration_value > 1200 →
        modeSummary "walking" leg =
          "Travel time: " ++ leg.duration_text ++ ". Distance: " ++ leg.distance_text
            ++ ". Transport: " ++ "Transit/Bus" ++ ". Note: "
            ++ "Consider public transport or taxi since walking is long." ++ ".")
    ∧ (∀ leg m ms, leg.steps = some m :: ms →
        modeSummary "transit" leg =
          "Travel time: " ++ leg.duration_text ++ ". Distance: " ++ leg.distance_text
            ++ ". Transport: " ++ m ++ ". Note: "
            ++ "Requires purchasing a ticket." ++ ".") := by
  refine ⟨fun query leg hw => ?_, fun query leg hw ht => ?_,
    fun query leg hw ht hd => ?_, fun query h => ?_, fun leg h => ?_,
    fun leg m ms h => ?_⟩
  · simp [calculate_travel_time, travelLoop, modes_to_try, hw]
  · rcases hw with hw | hw <;>
      simp [calculate_travel_time, travelLoop, modes_to_try, hw, ht]
  · rcases hw with hw | hw <;> rcases ht with ht | ht <;>
      simp [calculate_travel_time, travelLoop, modes_to_try, hw, ht, hd]
  · rcases h "walking" with hw | hw <;> rcases h "transit" with ht | ht <;>
      rcases h "driving" with hd | hd <;>
      simp [calculate_travel_time, travelLoop, modes_to_try, hw, ht, hd]
  · simp [modeSummary, h]
  · simp [modeSummary, h]

/-- Witness for claim C8 at concrete directions oracles. -/
theorem claim_C8_witness :
    calculate_travel_time true queryAllModes "Prado Museum" "Retiro Park" =
      (modeSummary "walking" walkLongLeg, ["walking"])
    ∧ calculate_travel_time true queryTransitOnly "Prado Museum" "Retiro Park" =
      (modeSummary "transit" transitLeg, ["walking", "transit"])
    ∧ calculate_travel_time true queryDrivingOnly "Prado Museum" "Retiro Park" =
      (modeSummary "driving" driveLeg, ["walking", "transit", "driving"])
    ∧ calculate_travel_time true queryNothing "Prado Museum" "Retiro Park" =
      ("Travel time: Route not found for walking, transit, or driving between "
        ++ "Prado Museum" ++ " and " ++ "Retiro Park" ++ ". Check locations.",
       ["walking", "transit", "driving"])
    ∧ modeSummary "walking" walkLongLeg =
      "Travel time: " ++ walkLongLeg.duration_text ++ ". Distance: "
        ++ walkLongLeg.distance_text ++ ". Transport: " ++ "Transit/Bus"
        ++ ". Note: " ++ "Consider public transport or taxi since walking is long."
        ++ "."
    ∧ modeSummary "transit" transitLeg =
      "Travel time: " ++ transitLeg.duration_text ++ ". Distance: "
        ++ transitLeg.distance_text ++ ". Transport: " ++ "BUS" ++ ". Note: "
        ++ "Requires purchasing a ticket." ++ "." :=
  ⟨(claim_C8_mode_order_and_relabel "Prado Museum" "Retiro Park").1
      queryAllModes walkLongLeg (by decide),
    (claim_C8_mode_order_and_relabel "Prado Museum" "Retiro Park").2.1
      queryTransitOnly transitLeg (Or.inr (by decide)) (by decide),
    (claim_C8_mode_order_and_relabel "Prado Museum" "Retiro Park").2.2.1
      queryDrivingOnly driveLeg (Or.inl (by decide)) (Or.inl (by decide)) (by decide),
    (claim_C8_mode_order_and_relabel "Prado Museum" "Retiro Park").2.2.2.1
      queryNothing (fun _ => Or.inr rfl),
    (claim_C8_mode_order_and_relabel "Prado Museum" "Retiro Park").2.2.2.2.1
      walkLongLeg (by decide),
    (claim_C8_mode_order_and_relabel "Prado Museum" "Retiro Park").2.2.2.2.2
      transitLeg "BUS" [some "WALKING"] (by decide)⟩

/-- Claim C10: when the walking query yields a valid route over 1200 seconds,
transit and driving are never queried, and the summary reports the walking
duration and distance under the Transit/Bus label, even when the other modes
would also yield routes. -/
theorem claim_C10_long_walk_shortcircuit (query : String → ModeResult)
    (leg : RouteLeg) (from_location to_location : String)
    (hw : query "walking" = ModeResult.route leg)
    (hlong : leg.duration_value > 1200) :
    calculate_travel_time true query from_location to_location =
      ("Travel time: " ++ leg.duration_text ++ ". Distance: " ++ leg.distance_text
        ++ ". Transport: " ++ "Transit/Bus" ++ ". Note: "
        ++ "Consider public transport or taxi since walking is long." ++ ".",
       ["walking"]) := by
  simp [calculate_travel_time, travelLoop, modes_to_try, hw, modeSummary, hlong]

/-- Witness for claim C10: the oracle that yields a valid route for every
mode, with a 1500 second walking leg. -/
theorem claim_C10_witness :
    calculate_travel_time true queryAllModes "Prado Museum" "Retiro Park" =
      ("Travel time: " ++ walkLongLeg.duration_text ++ ". Distance: "
        ++ walkLongLeg.distance_text ++ ". Transport: " ++ "Transit/Bus"
        ++ ". Note: " ++ "Consider public transport or taxi since walking is long."
        ++ ".",
       ["walking"]) :=
  claim_C10_long_walk_shortcircuit queryAllModes walkLongLeg "Prado Museum"
    "Retiro Park" (by decide) (by decide)

end TravelAssistant
